import Mathlib

/-!
Shallow embedding of `src/index.ts` of kalim-Asim/github-stats-viewer:
a CLI tool that fetches a GitHub user profile and the user's five most
recently updated repositories and renders them as terminal text.

JavaScript strings are modelled as Lean `String`; optional/nullable
string fields (`name`, `bio`, `description`, `language`) are modelled as
`Option String`, where `none` stands for `null`/`undefined`.  JavaScript
truthiness on such a field (`if (x)`, `x ? a : b`, `x || y`) is captured
by `jsTruthy`: `null`/`undefined` and the empty string are falsy.
Terminal colouring (chalk) carries no information and is dropped; output
is modelled as lists of plain lines / structured render events.
-/

namespace GithubStats

/-- The single-quote character, used in the not-found error message. -/
def sq : String := (Char.ofNat 39).toString

/-- JavaScript truthiness of a nullable string: `null`/`undefined` and
the empty string are falsy, every other string is truthy. -/
def jsTruthy : Option String → Bool
  | none => false
  | some s => !(s == "")

/-- The `GitHubUser` interface of `src/index.ts` (lines 8-18).  Fields
that the remote service may omit or return as `null` are `Option`s. -/
structure GitHubUser where
  login : String
  name : Option String
  bio : Option String
  avatar_url : String
  public_repos : Nat
  followers : Nat
  following : Nat
  created_at : String
  html_url : String
  deriving Repr, DecidableEq

/-- The `GitHubRepo` interface of `src/index.ts` (lines 20-27). -/
structure GitHubRepo where
  name : String
  description : Option String
  html_url : String
  stargazers_count : Nat
  forks_count : Nat
  language : Option String
  deriving Repr, DecidableEq

/-- Outcome of an HTTP GET as observed by the `catch` blocks of
`src/index.ts`: a successful response carrying decoded data, an axios
error carrying the optional HTTP status of `error.response`, or any
other thrown error (no response status available). -/
inductive HttpResult (α : Type) where
  | ok (data : α)
  | axiosErr (status : Option Nat)
  | otherErr
  deriving Repr, DecidableEq

/-- Error kinds of the tool: `notFound` for the profile 404 path,
`fetchFailure` for every other transport or decoding error.  Each kind
carries the thrown `Error` message. -/
inductive FetchError where
  | notFound (msg : String)
  | fetchFailure (msg : String)
  deriving Repr, DecidableEq

/-- The message text carried by a `FetchError`. -/
def FetchError.message : FetchError → String
  | .notFound m => m
  | .fetchFailure m => m

/-- The not-found error message of `src/index.ts` line 35:
`User '<username>' not found on GitHub`. -/
def userNotFoundMsg (username : String) : String :=
  "User " ++ sq ++ username ++ sq ++ " not found on GitHub"

/-- `fetchUserData` of `src/index.ts` (lines 29-39): returns the decoded
response data on success; on an axios error whose response status is 404
it throws the not-found message, on any other error it throws the
generic failure message. -/
def fetchUserData (username : String) (resp : HttpResult GitHubUser) :
    Except FetchError GitHubUser :=
  match resp with
  | .ok d => .ok d
  | .axiosErr status =>
      if status == some 404 then
        .error (.notFound (userNotFoundMsg username))
      else
        .error (.fetchFailure "Failed to fetch user data from GitHub API")
  | .otherErr =>
      .error (.fetchFailure "Failed to fetch user data from GitHub API")

/-- `fetchUserRepos` of `src/index.ts` (lines 41-48): returns the decoded
repository list on success; every error is rethrown as the generic
repository failure message. -/
def fetchUserRepos (resp : HttpResult (List GitHubRepo)) :
    Except FetchError (List GitHubRepo) :=
  match resp with
  | .ok d => .ok d
  | .axiosErr _ =>
      .error (.fetchFailure "Failed to fetch repository data from GitHub API")
  | .otherErr =>
      .error (.fetchFailure "Failed to fetch repository data from GitHub API")

/-- `displayUserInfo` of `src/index.ts` (lines 50-69), modelled as the
list of plain text lines written to the console.  The date reformatting
`new Date(created_at).toLocaleDateString()` is a locale-dependent
runtime-library call and is abstracted as the parameter `fmt`. -/
def displayUserInfo (fmt : String → String) (u : GitHubUser) : List String :=
  ["User Information:", "Username: " ++ u.login]
  ++ (if jsTruthy u.name then ["Name: " ++ u.name.getD ""] else [])
  ++ (if jsTruthy u.bio then ["Bio: " ++ u.bio.getD ""] else [])
  ++ ["Profile URL: " ++ u.html_url,
      "Account Created: " ++ fmt u.created_at,
      "Stats:",
      "Public Repositories: " ++ toString u.public_repos,
      "Followers: " ++ toString u.followers,
      "Following: " ++ toString u.following]

/-- One row of the repository table (the array pushed at lines 91-97 of
`src/index.ts`). -/
structure Row where
  repoName : String
  description : String
  stars : Nat
  forks : Nat
  language : String
  deriving Repr, DecidableEq

/-- The Description cell of a table row (line 93 of `src/index.ts`):
`repo.description ? repo.description.substring(0, 27) +
(repo.description.length > 27 ? '...' : '') : ''`. -/
def descCell (d : Option String) : String :=
  if jsTruthy d then
    (d.getD "").take 27 ++ (if (d.getD "").length > 27 then "..." else "")
  else ""

/-- The Language cell of a table row (line 96 of `src/index.ts`):
`repo.language || 'N/A'`. -/
def langCell (l : Option String) : String :=
  if jsTruthy l then l.getD "" else "N/A"

/-- The table row built for one repository (lines 91-97 of
`src/index.ts`). -/
def renderRow (r : GitHubRepo) : Row :=
  { repoName := r.name
    description := descCell r.description
    stars := r.stargazers_count
    forks := r.forks_count
    language := langCell r.language }

/-- What `displayRepoInfo` writes: either the single no-repositories
notice, or the section title followed by a table with a header row and
one data row per repository. -/
inductive RepoDisplay where
  | noRepos (notice : String)
  | table (title : String) (header : List String) (rows : List Row)
  deriving Repr, DecidableEq

/-- The data rows of a `RepoDisplay` (none for the empty notice). -/
def RepoDisplay.dataRows : RepoDisplay → List Row
  | .noRepos _ => []
  | .table _ _ rows => rows

/-- `displayRepoInfo` of `src/index.ts` (lines 71-101): for an empty
list it prints only the no-repositories notice and returns; otherwise it
prints the title and a table whose head names the five columns and whose
body has one row per repository. -/
def displayRepoInfo (repos : List GitHubRepo) : RepoDisplay :=
  if repos.length == 0 then
    .noRepos "No repositories found."
  else
    .table "Top 5 Repositories:"
      ["Repository", "Description", "Stars", "Forks", "Language"]
      (repos.map renderRow)

/-- Observable events of one run of the command action (lines 116-131 of
`src/index.ts`), in the order they happen. -/
inductive Event where
  | fetchUser
  | fetchRepos
  | spinnerSucceed
  | spinnerFail (msg : String)
  | renderUser (u : GitHubUser)
  | renderRepos (rs : List GitHubRepo)
  deriving Repr, DecidableEq

/-- Result of one run of the command action: its event trace and the
process exit code (1 via `process.exit(1)` in the catch block, 0 when
the action completes normally). -/
structure DriverRun where
  events : List Event
  exitCode : Nat
  deriving Repr, DecidableEq

/-- The command action of `src/index.ts` (lines 116-131): await the
profile fetch, then the repository fetch, then mark the spinner as
succeeded and render both; any thrown error jumps to the catch block,
which fails the spinner with the error message and exits with code 1. -/
def runAction (username : String) (userResp : HttpResult GitHubUser)
    (repoResp : HttpResult (List GitHubRepo)) : DriverRun :=
  match fetchUserData username userResp with
  | .error e =>
      { events := [.fetchUser, .spinnerFail e.message], exitCode := 1 }
  | .ok userData =>
      match fetchUserRepos repoResp with
      | .error e =>
          { events := [.fetchUser, .fetchRepos, .spinnerFail e.message]
            exitCode := 1 }
      | .ok userRepos =>
          { events := [.fetchUser, .fetchRepos, .spinnerSucceed,
                       .renderUser userData, .renderRepos userRepos]
            exitCode := 0 }

/-- Modelled from the spec: the remote repository endpoint is queried
with `per_page=5`, so the response list is the account's repository
list (most-recently-updated first) capped at 5 entries by the query
itself.  The capping happens on the remote service, whose code is not
part of this repository. -/
def remoteRepoResponse (allRepos : List GitHubRepo) : List GitHubRepo :=
  allRepos.take 5

/-- The identity date formatter, used to instantiate the abstract
locale-dependent date reformatting in concrete examples. -/
def idFmt : String → String := fun s => s

/-- A sample fetched profile used in concrete instantiations. -/
def sampleUser : GitHubUser :=
  { login := "kalim-Asim"
    name := some "Kalim Asim"
    bio := some "Builds CLI tools"
    avatar_url := "https://avatars.example/1"
    public_repos := 12
    followers := 34
    following := 7
    created_at := "2020-05-01T10:20:30Z"
    html_url := "https://github.example/kalim-Asim" }

/-- A sample repository whose description has 36 characters. -/
def longDescRepo : GitHubRepo :=
  { name := "stats-viewer"
    description := some "abcdefghijklmnopqrstuvwxyz0123456789"
    html_url := "https://github.example/r1"
    stargazers_count := 3
    forks_count := 1
    language := some "TypeScript" }

/-- A sample repository whose language field holds the empty string. -/
def emptyLangRepo : GitHubRepo :=
  { name := "empty-lang"
    description := none
    html_url := "https://github.example/r2"
    stargazers_count := 0
    forks_count := 0
    language := some "" }

end GithubStats

namespace GithubStats

set_option maxRecDepth 10000

theorem str_append_assoc (a b c : String) : a ++ b ++ c = a ++ (b ++ c) := by
  apply String.ext
  simp [String.data_append]

theorem take_of_length_le (d : String) (h : d.length ≤ 27) : d.take 27 = d := by
  rw [String.take_eq]
  cases d with
  | mk data =>
    simp only [String.length] at h
    simp [List.take_of_length_le h]

/-- C1: for a repository description longer than 27 characters the
rendered Description cell is the first 27 characters followed by the
3-character ellipsis; a description of at most 27 characters is
rendered unchanged, with no ellipsis; an empty description renders as
the empty cell. -/
theorem claim1_description_cell (r : GitHubRepo) (d : String)
    (hd : r.description = some d) :
    (27 < d.length → (renderRow r).description = d.take 27 ++ "...") ∧
    (d.length ≤ 27 → (renderRow r).description = d) ∧
    (d = "" → (renderRow r).description = "") ∧
    ("..." : String).length = 3 := by
  refine ⟨?_, ?_, ?_, by decide⟩
  · intro h
    have hne : d ≠ "" := by
      intro e
      subst e
      simp [String.length] at h
    simp [renderRow, descCell, jsTruthy, hd, hne, h]
  · intro h
    by_cases he : d = ""
    · subst he
      simp [renderRow, descCell, jsTruthy, hd]
    · have hnot : ¬ 27 < d.length := by omega
      simp [renderRow, descCell, jsTruthy, hd, he, hnot, take_of_length_le d h]
  · intro h
    subst h
    simp [renderRow, descCell, jsTruthy, hd]

theorem claim1_description_cell_witness :
    27 < ("abcdefghijklmnopqrstuvwxyz0123456789" : String).length ∧
    (renderRow longDescRepo).description =
      ("abcdefghijklmnopqrstuvwxyz0123456789" : String).take 27 ++ "..." :=
  ⟨by decide,
    (claim1_description_cell longDescRepo
      "abcdefghijklmnopqrstuvwxyz0123456789" rfl).1 (by decide)⟩

/-- C2: fetchUserData fails with the NotFound kind exactly when the
response is an axios error with HTTP status 404; the NotFound message
contains the username and the words "not found"; every other failing
response yields the generic FetchFailure kind. -/
theorem claim2_profile_error_kinds (username : String)
    (resp : HttpResult GitHubUser) :
    (fetchUserData username resp =
        .error (.notFound (userNotFoundMsg username)) ↔
      resp = .axiosErr (some 404)) ∧
    (∀ m, fetchUserData username resp = .error (.notFound m) →
      m = userNotFoundMsg username) ∧
    (∃ a b, userNotFoundMsg username = a ++ username ++ b) ∧
    (∃ a b, userNotFoundMsg username = a ++ "not found" ++ b) ∧
    (∀ st, st ≠ some 404 →
      fetchUserData username (.axiosErr st) =
        .error (.fetchFailure "Failed to fetch user data from GitHub API")) ∧
    (fetchUserData username .otherErr =
      .error (.fetchFailure "Failed to fetch user data from GitHub API")) := by
  refine ⟨?_, ?_, ?_, ?_, ?_, rfl⟩
  · constructor
    · intro h
      cases resp with
      | ok d => simp [fetchUserData] at h
      | axiosErr st =>
        by_cases h4 : st = some 404
        · subst h4
          rfl
        · simp [fetchUserData, h4] at h
      | otherErr => simp [fetchUserData] at h
    · intro h
      subst h
      simp [fetchUserData]
  · intro m h
    cases resp with
    | ok d => simp [fetchUserData] at h
    | axiosErr st =>
      by_cases h4 : st = some 404
      · subst h4
        simp [fetchUserData] at h
        exact h.symm
      · simp [fetchUserData, h4] at h
    | otherErr => simp [fetchUserData] at h
  · exact ⟨"User " ++ sq, sq ++ " not found on GitHub", by
      simp [userNotFoundMsg, str_append_assoc]⟩
  · exact ⟨"User " ++ sq ++ username ++ sq ++ " ", " on GitHub", by
      apply String.ext
      simp [userNotFoundMsg, String.data_append]⟩
  · intro st hst
    simp [fetchUserData, hst]

theorem claim2_profile_error_kinds_witness :
    fetchUserData "octocat" (HttpResult.axiosErr (some 404)) =
      Except.error (FetchError.notFound (userNotFoundMsg "octocat")) :=
  (claim2_profile_error_kinds "octocat" (HttpResult.axiosErr (some 404))).1.mpr
    rfl

/-- C3: the repository fetch happens only after a successful profile
fetch: when the profile fetch fails the fetchRepos event never appears
in the trace; when it succeeds the trace starts with fetchUser
immediately followed by fetchRepos. -/
theorem claim3_repos_after_profile (username : String)
    (ur : HttpResult GitHubUser) (rr : HttpResult (List GitHubRepo)) :
    (∀ e, fetchUserData username ur = .error e →
      Event.fetchRepos ∉ (runAction username ur rr).events) ∧
    (∀ u, fetchUserData username ur = .ok u →
      ∃ rest, (runAction username ur rr).events =
        Event.fetchUser :: Event.fetchRepos :: rest) := by
  constructor
  · intro e he
    simp [runAction, he]
  · intro u hu
    cases hr : fetchUserRepos rr with
    | ok rs =>
      exact ⟨[Event.spinnerSucceed, Event.renderUser u, Event.renderRepos rs],
        by simp [runAction, hu, hr]⟩
    | error e =>
      exact ⟨[Event.spinnerFail e.message], by simp [runAction, hu, hr]⟩

theorem claim3_repos_after_profile_witness :
    Event.fetchRepos ∉
      (runAction "octocat" HttpResult.otherErr
        (HttpResult.ok ([] : List GitHubRepo))).events :=
  (claim3_repos_after_profile "octocat" HttpResult.otherErr
      (HttpResult.ok [])).1
    (FetchError.fetchFailure "Failed to fetch user data from GitHub API") rfl

/-- C4: whenever either fetch fails the action exits with code 1,
surfaces the error message through the spinner failure event, and emits
no render events at all; when both fetches succeed the exit code is
0. -/
theorem claim4_driver_failure (username : String)
    (ur : HttpResult GitHubUser) (rr : HttpResult (List GitHubRepo)) :
    (∀ e, fetchUserData username ur = .error e →
      (runAction username ur rr).exitCode = 1 ∧
      Event.spinnerFail e.message ∈ (runAction username ur rr).events ∧
      (∀ x, Event.renderUser x ∉ (runAction username ur rr).events) ∧
      (∀ x, Event.renderRepos x ∉ (runAction username ur rr).events)) ∧
    (∀ u e, fetchUserData username ur = .ok u →
      fetchUserRepos rr = .error e →
      (runAction username ur rr).exitCode = 1 ∧
      Event.spinnerFail e.message ∈ (runAction username ur rr).events ∧
      (∀ x, Event.renderUser x ∉ (runAction username ur rr).events) ∧
      (∀ x, Event.renderRepos x ∉ (runAction username ur rr).events)) ∧
    (∀ u rs, fetchUserData username ur = .ok u →
      fetchUserRepos rr = .ok rs →
      (runAction username ur rr).exitCode = 0) := by
  refine ⟨?_, ?_, ?_⟩
  · intro e he
    refine ⟨by simp [runAction, he], by simp [runAction, he], ?_, ?_⟩ <;>
      intro x <;> simp [runAction, he]
  · intro u e hu he
    refine ⟨by simp [runAction, hu, he], by simp [runAction, hu, he],
        ?_, ?_⟩ <;>
      intro x <;> simp [runAction, hu, he]
  · intro u rs hu hr
    simp [runAction, hu, hr]

theorem claim4_driver_failure_witness :
    (runAction "octocat" HttpResult.otherErr
      (HttpResult.ok ([] : List GitHubRepo))).exitCode = 1 :=
  ((claim4_driver_failure "octocat" HttpResult.otherErr (HttpResult.ok [])).1
    (FetchError.fetchFailure "Failed to fetch user data from GitHub API")
    rfl).1

/-- C5: every failing repository fetch, including a remote 404
response, yields the generic FetchFailure kind with the repository
failure message; the result is never a NotFound error. -/
theorem claim5_repos_only_fetchFailure (resp : HttpResult (List GitHubRepo)) :
    (∀ e, fetchUserRepos resp = .error e →
      e = .fetchFailure "Failed to fetch repository data from GitHub API") ∧
    (∀ m, fetchUserRepos resp ≠ .error (.notFound m)) ∧
    fetchUserRepos (.axiosErr (some 404)) =
      .error
        (.fetchFailure "Failed to fetch repository data from GitHub API") := by
  refine ⟨?_, ?_, rfl⟩
  · intro e he
    cases resp <;> simp_all [fetchUserRepos]
  · intro m h
    cases resp <;> simp_all [fetchUserRepos]

theorem claim5_repos_only_fetchFailure_witness :
    fetchUserRepos (HttpResult.axiosErr (some 404)) ≠
      Except.error (FetchError.notFound (userNotFoundMsg "octocat")) :=
  (claim5_repos_only_fetchFailure (HttpResult.axiosErr (some 404))).2.1
    (userNotFoundMsg "octocat")

/-- C6: for the empty repository list displayRepoInfo emits only the
no-repositories notice; there is no table title, header or row. -/
theorem claim6_empty_repo_list :
    displayRepoInfo [] = .noRepos "No repositories found." ∧
    (displayRepoInfo []).dataRows = [] :=
  ⟨rfl, rfl⟩

/-- C7 fails as stated: emptyLangRepo has its language field present,
holding the empty string, yet the rendered Language cell is "N/A" and
not that language. -/
theorem claim7_language_counterexample :
    emptyLangRepo.language = some "" ∧
    (renderRow emptyLangRepo).language = "N/A" ∧
    (renderRow emptyLangRepo).language ≠ "" := by
  decide

/-- C7 (amended): with no language field, or with a language field
holding the empty string, the rendered Language cell is the literal
"N/A"; with a non-empty language present the cell equals that
language. -/
theorem claim7_language_cell (r : GitHubRepo) :
    (r.language = none → (renderRow r).language = "N/A") ∧
    (r.language = some "" → (renderRow r).language = "N/A") ∧
    (∀ l, r.language = some l → l ≠ "" → (renderRow r).language = l) := by
  refine ⟨?_, ?_, ?_⟩
  · intro h
    simp [renderRow, langCell, jsTruthy, h]
  · intro h
    simp [renderRow, langCell, jsTruthy, h]
  · intro l hl hne
    simp [renderRow, langCell, jsTruthy, hl, hne]

theorem claim7_language_cell_witness :
    (renderRow longDescRepo).language = "TypeScript" :=
  (claim7_language_cell longDescRepo).2.2 "TypeScript" rfl (by decide)

/-- C8: displayUserInfo prints, in fixed order: the header, the
username line, a Name line only when a name is present, a Bio line only
when a bio is present, the profile URL line, the reformatted
account-creation date line, then the stats block with the public
repository, follower and following counts; the locale-dependent date
reformatting of the runtime library is abstracted as the parameter
fmt. -/
theorem claim8_profile_line_order (fmt : String → String) (u : GitHubUser) :
    ∃ nameLines bioLines,
      displayUserInfo fmt u =
        ["User Information:", "Username: " ++ u.login] ++
          nameLines ++ bioLines ++
          ["Profile URL: " ++ u.html_url,
           "Account Created: " ++ fmt u.created_at,
           "Stats:",
           "Public Repositories: " ++ toString u.public_repos,
           "Followers: " ++ toString u.followers,
           "Following: " ++ toString u.following] ∧
      (∀ s, s ∈ nameLines → ∃ n, u.name = some n ∧ s = "Name: " ++ n) ∧
      (∀ s, s ∈ bioLines → ∃ b, u.bio = some b ∧ s = "Bio: " ++ b) := by
  refine ⟨if jsTruthy u.name then ["Name: " ++ u.name.getD ""] else [],
          if jsTruthy u.bio then ["Bio: " ++ u.bio.getD ""] else [],
          rfl, ?_, ?_⟩
  · intro s hs
    cases hu : u.name with
    | none =>
      rw [hu] at hs
      simp [jsTruthy] at hs
    | some n =>
      rw [hu] at hs
      by_cases hn : n = ""
      · subst hn
        simp [jsTruthy] at hs
      · simp [jsTruthy, hn] at hs
        exact ⟨n, rfl, hs⟩
  · intro s hs
    cases hu : u.bio with
    | none =>
      rw [hu] at hs
      simp [jsTruthy] at hs
    | some b =>
      rw [hu] at hs
      by_cases hb : b = ""
      · subst hb
        simp [jsTruthy] at hs
      · simp [jsTruthy, hb] at hs
        exact ⟨b, rfl, hs⟩

theorem claim8_profile_line_order_witness :
    ∃ nameLines bioLines,
      displayUserInfo idFmt sampleUser =
        ["User Information:", "Username: " ++ sampleUser.login] ++
          nameLines ++ bioLines ++
          ["Profile URL: " ++ sampleUser.html_url,
           "Account Created: " ++ idFmt sampleUser.created_at,
           "Stats:",
           "Public Repositories: " ++ toString sampleUser.public_repos,
           "Followers: " ++ toString sampleUser.followers,
           "Following: " ++ toString sampleUser.following] ∧
      (∀ s, s ∈ nameLines →
        ∃ n, sampleUser.name = some n ∧ s = "Name: " ++ n) ∧
      (∀ s, s ∈ bioLines →
        ∃ b, sampleUser.bio = some b ∧ s = "Bio: " ++ b) :=
  claim8_profile_line_order idFmt sampleUser

/-- C9: for an existing user with at least one repository, the rendered
profile contains the username line and the reformatted creation-date
line, and the repository table has exactly min(5, actual repository
count) data rows, one per element of the fetched list, which the query
itself caps at 5 entries. -/
theorem claim9_row_count (fmt : String → String) (u : GitHubUser)
    (allRepos : List GitHubRepo) (h : 1 ≤ allRepos.length) :
    ("Username: " ++ u.login) ∈ displayUserInfo fmt u ∧
    ("Account Created: " ++ fmt u.created_at) ∈ displayUserInfo fmt u ∧
    (remoteRepoResponse allRepos).length = min 5 allRepos.length ∧
    (displayRepoInfo (remoteRepoResponse allRepos)).dataRows.length =
      min 5 allRepos.length := by
  have hlen : (remoteRepoResponse allRepos).length = min 5 allRepos.length := by
    simp [remoteRepoResponse]
  refine ⟨?_, ?_, hlen, ?_⟩
  · simp [displayUserInfo]
  · simp [displayUserInfo]
  · have hne : allRepos ≠ [] := by
      intro e
      subst e
      simp at h
    simp [displayRepoInfo, RepoDisplay.dataRows, remoteRepoResponse, hne]

theorem claim9_row_count_witness :
    ("Username: " ++ sampleUser.login) ∈ displayUserInfo idFmt sampleUser ∧
    ("Account Created: " ++ idFmt sampleUser.created_at) ∈
      displayUserInfo idFmt sampleUser ∧
    (remoteRepoResponse [longDescRepo]).length = min 5 [longDescRepo].length ∧
    (displayRepoInfo (remoteRepoResponse [longDescRepo])).dataRows.length =
      min 5 [longDescRepo].length :=
  claim9_row_count idFmt sampleUser [longDescRepo] (by decide)

/-- C10: at the rendering interface an empty-string optional field is
indistinguishable from an absent one: the Language cell is "N/A" for an
empty-string language just as for a missing one, and the profile
rendering with an empty-string name or bio equals the rendering with
that field absent, so the Name and Bio lines are omitted in both
cases. -/
theorem claim10_empty_equals_absent (fmt : String → String)
    (u : GitHubUser) (r : GitHubRepo) :
    (renderRow { r with language := some "" }).language = "N/A" ∧
    renderRow { r with language := some "" } =
      renderRow { r with language := none } ∧
    displayUserInfo fmt { u with name := some "" } =
      displayUserInfo fmt { u with name := none } ∧
    displayUserInfo fmt { u with bio := some "" } =
      displayUserInfo fmt { u with bio := none } := by
  refine ⟨?_, ?_, ?_, ?_⟩
  · simp [renderRow, langCell, jsTruthy]
  · simp [renderRow, langCell, jsTruthy]
  · simp [displayUserInfo, jsTruthy]
  · simp [displayUserInfo, jsTruthy]

end GithubStats
